import Mathlib

/-!
Shallow embedding of the FusionEngineGeyser plugin (src/src/lib.rs) and
proofs about it.

The repository is a Solana Geyser plugin: host callbacks convert versioned
upstream payloads into a canonical `AccTx` event, hand the event to an
unbounded channel, and a single detached background task drains the channel
and appends the Debug-formatted bytes of each event to one of two files
("./accs.txt" for account events, "./txs.txt" for transaction events).

Modelling conventions:
- `u64`/`usize` become `Nat` (the code only copies these values, it never
  does arithmetic on them, so no wrap-around modelling is needed);
- byte slices (`&[u8]`, `Vec<u8>`) become `List Nat`;
- `solana_sdk::signature::Signature` is represented by its base58 debug
  string (the base58 rendering of the 64 signature bytes is a bijection,
  and the plugin only ever copies signatures and Debug-formats them);
- `SanitizedTransaction` and `TransactionStatusMeta` are opaque payloads
  passed through unmodified; they are represented by their derived Debug
  rendering, which is all the plugin ever observes of them;
- the serialized byte stream (`String::into_bytes`, UTF-8) is modelled at
  the character level as `List Char`; UTF-8 encoding of a string is
  injective, so nothing is lost;
- the fallible effects of the writer task (`File::write_all` followed by
  `.unwrap()`) are modelled by an explicit success oracle: `.unwrap()` on
  an `Err` panics, which unwinds the async task, so the drain loop stops
  at the first failed write with no retry and no recovery.
-/

/-- Model of `solana_sdk::signature::Signature`, identified with its base58
debug rendering (a bijective image of the 64 raw bytes; the plugin only
copies signatures and Debug-formats them). -/
structure Signature where
  dbg58 : String
deriving DecidableEq

/-- Model of `solana_sdk::transaction::SanitizedTransaction`, an opaque
payload the plugin passes through unmodified; represented by its derived
Debug rendering, the only view the plugin takes of it. -/
structure SanitizedTransaction where
  dbg : String
deriving DecidableEq

/-- Model of `solana_transaction_status::TransactionStatusMeta`, opaque to
the plugin, represented by its derived Debug rendering. -/
structure TransactionStatusMeta where
  dbg : String
deriving DecidableEq

/-- Model of `ReplicaAccountInfo` (upstream account schema V0_0_1): the
fields the source reads at src/src/lib.rs:66-77. It has no
origin-signature field. -/
structure ReplicaAccountInfo where
  pubkey : List Nat
  lamports : Nat
  owner : List Nat
  executable : Bool
  rent_epoch : Nat
  data : List Nat
  write_version : Nat
deriving DecidableEq

/-- Model of `ReplicaAccountInfoV2` (upstream account schema V0_0_2): the
fields of V0_0_1 plus the optional originating transaction signature read
at src/src/lib.rs:78-89 (`Option<&Signature>`, `.cloned()` by the source;
the reference is erased in the model). -/
structure ReplicaAccountInfoV2 where
  pubkey : List Nat
  lamports : Nat
  owner : List Nat
  executable : Bool
  rent_epoch : Nat
  data : List Nat
  write_version : Nat
  txn_signature : Option Signature
deriving DecidableEq

/-- Model of `ReplicaAccountInfoVersions` from the geyser plugin
interface: the two supported account schema versions. -/
inductive ReplicaAccountInfoVersions where
  | V0_0_1 (inner_account : ReplicaAccountInfo)
  | V0_0_2 (inner_account : ReplicaAccountInfoV2)
deriving DecidableEq

/-- Model of `ReplicaTransactionInfo` (upstream transaction schema
V0_0_1): the fields the source reads at src/src/lib.rs:95-102. It has no
in-slot index field. -/
structure ReplicaTransactionInfo where
  signature : Signature
  is_vote : Bool
  transaction : SanitizedTransaction
  transaction_status_meta : TransactionStatusMeta
deriving DecidableEq

/-- Model of `ReplicaTransactionInfoV2` (upstream transaction schema
V0_0_2): V0_0_1 plus the transaction's in-slot `index` read at
src/src/lib.rs:104-111. -/
structure ReplicaTransactionInfoV2 where
  signature : Signature
  is_vote : Bool
  transaction : SanitizedTransaction
  transaction_status_meta : TransactionStatusMeta
  index : Nat
deriving DecidableEq

/-- Model of `ReplicaTransactionInfoVersions`: the two supported
transaction schema versions. -/
inductive ReplicaTransactionInfoVersions where
  | V0_0_1 (inner_tx : ReplicaTransactionInfo)
  | V0_0_2 (inner_tx : ReplicaTransactionInfoV2)
deriving DecidableEq

/-- The canonical event model, `enum AccTx` at src/src/lib.rs:14-36: a
tagged union of an account snapshot and a transaction record. -/
inductive AccTx where
  | Acc (pubkey : List Nat) (lamports : Nat) (owner : List Nat)
        (executable : Bool) (rent_epoch : Nat) (data : List Nat)
        (write_version : Nat) (txn_signature : Option Signature)
        (slot : Nat) (is_startup : Bool)
  | Tx (slot : Nat) (signature : Signature) (is_vote : Bool)
       (transaction : SanitizedTransaction)
       (transaction_status_meta : TransactionStatusMeta)
       (index : Option Nat)
deriving DecidableEq

/-- True exactly on the `Acc` variant (the discriminant the writer task's
`match` at src/src/lib.rs:127-134 branches on). -/
def AccTx.isAcc : AccTx → Bool
  | .Acc .. => true
  | .Tx .. => false

/-- True exactly on the `Tx` variant. -/
def AccTx.isTx : AccTx → Bool
  | .Acc .. => false
  | .Tx .. => true

/-- Embedding of `AccTx::into_acc` (src/src/lib.rs:64-91): version-normalizing
conversion of an account update. V0_0_1 has no origin signature, so
`txn_signature` is `Option::default()` (`none`); V0_0_2 copies the
source's optional signature. All other fields are copied verbatim, and
`slot` / `is_startup` come from the call's arguments. -/
def AccTx.into_acc (slot : Nat) (is_startup : Bool)
    (value : ReplicaAccountInfoVersions) : AccTx :=
  match value with
  | .V0_0_1 inner_account =>
      .Acc inner_account.pubkey inner_account.lamports inner_account.owner
        inner_account.executable inner_account.rent_epoch inner_account.data
        inner_account.write_version none slot is_startup
  | .V0_0_2 inner_account =>
      .Acc inner_account.pubkey inner_account.lamports inner_account.owner
        inner_account.executable inner_account.rent_epoch inner_account.data
        inner_account.write_version inner_account.txn_signature slot is_startup

/-- Embedding of `AccTx::into_tx` (src/src/lib.rs:93-113): version-normalizing
conversion of a transaction notification. V0_0_1 has no in-slot index, so
`index` is `Option::default()` (`none`); V0_0_2 wraps the source's index
in `Some`. All other fields are copied verbatim, and `slot` comes from the
call's argument. -/
def AccTx.into_tx (slot : Nat) (value : ReplicaTransactionInfoVersions) : AccTx :=
  match value with
  | .V0_0_1 inner_tx =>
      .Tx slot inner_tx.signature inner_tx.is_vote inner_tx.transaction
        inner_tx.transaction_status_meta none
  | .V0_0_2 inner_tx =>
      .Tx slot inner_tx.signature inner_tx.is_vote inner_tx.transaction
        inner_tx.transaction_status_meta (some inner_tx.index)

/-- Debug rendering of a `Vec<u8>` / `&[u8]` value: decimal bytes between
brackets, separated by comma-space, exactly as Rust's derived `Debug` for
a byte vector prints it. -/
def fmtByteList (l : List Nat) : String :=
  "[" ++ String.intercalate ", " (l.map toString) ++ "]"

/-- Debug rendering of a `bool`. -/
def fmtBool (b : Bool) : String :=
  if b then "true" else "false"

/-- Debug rendering of an `Option<Signature>`: `None`, or `Some(...)`
around the signature's base58 debug form. -/
def fmtOptSig : Option Signature → String
  | none => "None"
  | some sig => "Some(" ++ sig.dbg58 ++ ")"

/-- Debug rendering of an `Option<usize>`. -/
def fmtOptNat : Option Nat → String
  | none => "None"
  | some n => "Some(" ++ toString n ++ ")"

/-- One `name: value` item of a derived-Debug struct body. -/
def fieldStr (name val : String) : String :=
  name ++ ": " ++ val

/-- Holds when `piece` occurs verbatim somewhere inside `s`. -/
def encodesField (s piece : String) : Prop :=
  ∃ l r, s = l ++ piece ++ r

/-- Holds when `s` starts with `t`. -/
def beginsWith (s t : String) : Prop :=
  ∃ r, s = t ++ r

/-- The `name: value` renderings of an event's fields, in the order the
derived Debug formatter prints them. -/
def AccTx.fieldPieces : AccTx → List String
  | .Acc pubkey lamports owner executable rent_epoch data write_version
      txn_signature slot is_startup =>
      [fieldStr "pubkey" (fmtByteList pubkey),
       fieldStr "lamports" (toString lamports),
       fieldStr "owner" (fmtByteList owner),
       fieldStr "executable" (fmtBool executable),
       fieldStr "rent_epoch" (toString rent_epoch),
       fieldStr "data" (fmtByteList data),
       fieldStr "write_version" (toString write_version),
       fieldStr "txn_signature" (fmtOptSig txn_signature),
       fieldStr "slot" (toString slot),
       fieldStr "is_startup" (fmtBool is_startup)]
  | .Tx slot signature is_vote transaction transaction_status_meta index =>
      [fieldStr "slot" (toString slot),
       fieldStr "signature" signature.dbg58,
       fieldStr "is_vote" (fmtBool is_vote),
       fieldStr "transaction" transaction.dbg,
       fieldStr "transaction_status_meta" transaction_status_meta.dbg,
       fieldStr "index" (fmtOptNat index)]

/-- The comma-space join of a derived-Debug struct body: the Rust
formatter prints the field items separated by `, `. -/
def debugBody : List String -> String
  | [] => ""
  | [p] => p
  | p :: rest => p ++ ", " ++ debugBody rest

/-- The variant tag the derived Debug formatter opens with. -/
def AccTx.variantTag (e : AccTx) : String :=
  if e.isAcc then "Acc" else "Tx"

/-- Embedding of `AccTx::to_string` (src/src/lib.rs:56-58): `format!("\x7b:?\x7d", self)`,
i.e. the derived `Debug` rendering of the event: the variant name, an
open brace, the `name: value` field items separated by comma-space, and
a closing brace. -/
def AccTx.to_string (e : AccTx) : String :=
  e.variantTag ++ " \x7b " ++ debugBody e.fieldPieces ++ " \x7d"

/-- Embedding of `AccTx::into_bytes` (src/src/lib.rs:60-62): the UTF-8 bytes of
`to_string`, modelled at the character level (UTF-8 encoding of a string
is injective). -/
def AccTx.into_bytes (e : AccTx) : List Char :=
  e.to_string.data

/-- A concrete account event used as evaluation input by witnesses. -/
def sampleAcc : AccTx :=
  .Acc [1, 2, 3] 500 [4] false 7 [9, 8] 2 none 10 true

/-- A concrete transaction event used as evaluation input by witnesses. -/
def sampleTx : AccTx :=
  .Tx 7 ⟨"4Vsample58Sig"⟩ false ⟨"SanitizedTransaction(sample)"⟩
    ⟨"TransactionStatusMeta(sample)"⟩ (some 3)

/-- An open append-only output stream: the path it was created at and the
bytes written so far (modelled as characters, see the header note).
`File::create` truncates, so a freshly created stream has empty
contents. -/
structure FileStream where
  path : String
  contents : List Char
deriving DecidableEq

/-- One successful `write_all` call: appends the record's bytes to the
stream. -/
def appendRecord (f : FileStream) (bytes : List Char) : FileStream :=
  { f with contents := f.contents ++ bytes }

/-- The writer task's drain loop (src/src/lib.rs:125-137) in the run where
every `write_all` succeeds: it receives events in channel order and, per
event, matches on the variant and appends `value.into_bytes()` to the
stream of that variant, until the channel is closed and drained. -/
def writerDrain : List AccTx → FileStream → FileStream → FileStream × FileStream
  | [], accs_file, txs_file => (accs_file, txs_file)
  | value :: rest, accs_file, txs_file =>
    if value.isAcc then
      writerDrain rest (appendRecord accs_file value.into_bytes) txs_file
    else
      writerDrain rest accs_file (appendRecord txs_file value.into_bytes)

/-- Outcome of a writer-task run with fallible writes: the two streams,
whether the task panicked, and the error-severity log records the task
emitted through the `log` facade. -/
structure WriterRunF where
  accs_file : FileStream
  txs_file : FileStream
  panicked : Bool
  error_log : List String
deriving DecidableEq

/-- The drain loop (src/src/lib.rs:125-137) with fallible writes: `ok n`
says whether the n-th `write_all` call succeeds. On `Err` the source's
`.unwrap()` panics, which unwinds the detached task: the loop stops
immediately, with no catch, no retry and no further appends. The loop
body contains no logging call, so the task's error-severity log is empty
in every outcome (a panic surfaces through the panic hook, not through
the `log` facade this plugin uses). -/
def writerDrainF (ok : Nat → Bool) :
    List AccTx → Nat → FileStream → FileStream → WriterRunF
  | [], _, accs_file, txs_file => ⟨accs_file, txs_file, false, []⟩
  | value :: rest, n, accs_file, txs_file =>
    if ok n then
      if value.isAcc then
        writerDrainF ok rest (n + 1) (appendRecord accs_file value.into_bytes)
          txs_file
      else
        writerDrainF ok rest (n + 1) accs_file
          (appendRecord txs_file value.into_bytes)
    else
      ⟨accs_file, txs_file, true, []⟩

/-- Model of `geyser_plugin_interface::Result`, with the error collapsed
to its message (the plugin never constructs an error value). -/
abbrev GeyserResult (α : Type) := Except String α

/-- Embedding of `pub struct FusionEnginePlugin` (src/src/lib.rs:151-152): the
plugin carries no state of its own. -/
structure FusionEnginePlugin where
deriving DecidableEq

/-- Embedding of `FusionEnginePlugin::new` (src/src/lib.rs:154-158). -/
def FusionEnginePlugin.new : FusionEnginePlugin := {}

/-- Embedding of `name` (src/src/lib.rs:161-163). -/
def FusionEnginePlugin.name (_self : FusionEnginePlugin) : String :=
  "FusionEnginePlugin"

/-- Model of `ReplicaBlockInfoVersions`, opaque to the plugin (the
callback ignores it). -/
structure ReplicaBlockInfoVersions where
  dbg : String
deriving DecidableEq

/-- Model of `SlotStatus` from the geyser plugin interface (the callback
ignores it). -/
inductive SlotStatus where
  | Processed
  | Rooted
  | Confirmed
deriving DecidableEq

/-- The process-wide pipeline state the callbacks act on: the channel's
buffered events and the two output streams owned by the writer task. -/
structure PipelineState where
  queue : List AccTx
  accs_file : FileStream
  txs_file : FileStream
deriving DecidableEq

/-- The lazily initialized `SENDER` singleton (src/src/lib.rs:116-141):
`File::create("./accs.txt")` and `File::create("./txs.txt")` truncate the
two hard-coded paths — string literals, independent of any configuration
— and the writer task starts with an empty channel. -/
def initPipeline : PipelineState :=
  ⟨[], ⟨"./accs.txt", []⟩, ⟨"./txs.txt", []⟩⟩

/-- Embedding of `on_load` (src/src/lib.rs:165-174): sets up logging, emits one
info-severity line naming the plugin and the config_file argument, and
returns Ok(()). It does not touch the pipeline: the `{:?}` rendering of
the two strings is modelled as quoting them. -/
def on_load (self : FusionEnginePlugin) (config_file : String)
    (s : PipelineState) : PipelineState × List String × GeyserResult Unit :=
  (s,
   ["Loading plugin \"" ++ self.name ++ "\" from config_file \""
      ++ config_file ++ "\""],
   Except.ok ())

/-- Embedding of `update_account` (src/src/lib.rs:178-193): builds the event with
`into_acc`, then `smol::block_on`s a spawned `SENDER.send(outcome)` —
awaited and unwrapped; the send on the open unbounded channel succeeds
and appends the event to the channel's buffer. The callback performs no
file I/O and returns Ok(()). -/
def update_account (_self : FusionEnginePlugin)
    (account : ReplicaAccountInfoVersions) (slot : Nat) (is_startup : Bool)
    (s : PipelineState) : PipelineState × GeyserResult Unit :=
  let outcome := AccTx.into_acc slot is_startup account
  ({ s with queue := s.queue ++ [outcome] }, Except.ok ())

/-- Embedding of `notify_transaction` (src/src/lib.rs:195-207): builds the event with
`into_tx` and spawns a detached `SENDER.send(outcome)`; the detached send
appends the event to the channel's buffer (the detachment only affects
when that happens relative to other producers, which this sequential
model does not track). The callback performs no file I/O and returns
Ok(()). -/
def notify_transaction (_self : FusionEnginePlugin)
    (transaction : ReplicaTransactionInfoVersions) (slot : Nat)
    (s : PipelineState) : PipelineState × GeyserResult Unit :=
  let outcome := AccTx.into_tx slot transaction
  ({ s with queue := s.queue ++ [outcome] }, Except.ok ())

/-- Embedding of `notify_block_metadata` (src/src/lib.rs:209-211): accepted, ignored. -/
def notify_block_metadata (_self : FusionEnginePlugin)
    (_blockinfo : ReplicaBlockInfoVersions) (s : PipelineState) :
    PipelineState × GeyserResult Unit :=
  (s, Except.ok ())

/-- Embedding of `update_slot_status` (src/src/lib.rs:213-220): accepted, ignored. -/
def update_slot_status (_self : FusionEnginePlugin) (_slot : Nat)
    (_parent : Option Nat) (_status : SlotStatus) (s : PipelineState) :
    PipelineState × GeyserResult Unit :=
  (s, Except.ok ())

/-- Embedding of `notify_end_of_startup` (src/src/lib.rs:222-224): accepted, ignored. -/
def notify_end_of_startup (_self : FusionEnginePlugin) (s : PipelineState) :
    PipelineState × GeyserResult Unit :=
  (s, Except.ok ())

/-- Embedding of `account_data_notifications_enabled` (src/src/lib.rs:226-228). -/
def account_data_notifications_enabled (_self : FusionEnginePlugin) : Bool :=
  true

/-- Embedding of `transaction_notifications_enabled` (src/src/lib.rs:230-232). -/
def transaction_notifications_enabled (_self : FusionEnginePlugin) : Bool :=
  true

/-- C1: for every slot, is_startup flag and supported versioned account
input, `AccTx::into_acc` returns an `Acc` event whose pubkey, lamports,
owner, executable, rent_epoch, data and write_version equal the source
fields verbatim; `txn_signature` is absent for schema V0_0_1 and equals
the source's optional signature for schema V0_0_2; `slot` and
`is_startup` are the call's arguments. -/
theorem into_acc_copies_fields_verbatim
    (slot : Nat) (is_startup : Bool) (value : ReplicaAccountInfoVersions) :
    AccTx.into_acc slot is_startup value =
      match value with
      | .V0_0_1 r =>
          .Acc r.pubkey r.lamports r.owner r.executable r.rent_epoch r.data
            r.write_version none slot is_startup
      | .V0_0_2 r =>
          .Acc r.pubkey r.lamports r.owner r.executable r.rent_epoch r.data
            r.write_version r.txn_signature slot is_startup := by
  cases value <;> rfl

/-- C2: for every slot and supported versioned transaction input,
`AccTx::into_tx` returns a `Tx` event whose signature, is_vote,
transaction and transaction_status_meta equal the source fields verbatim;
`index` is absent for schema V0_0_1 and `some` of the source's index for
schema V0_0_2; `slot` is the call's argument. -/
theorem into_tx_copies_fields_verbatim
    (slot : Nat) (value : ReplicaTransactionInfoVersions) :
    AccTx.into_tx slot value =
      match value with
      | .V0_0_1 r =>
          .Tx slot r.signature r.is_vote r.transaction
            r.transaction_status_meta none
      | .V0_0_2 r =>
          .Tx slot r.signature r.is_vote r.transaction
            r.transaction_status_meta (some r.index) := by
  cases value <;> rfl

/-- C5: the account and transaction conversions are total pure functions
over both supported schema versions: modelled as total Lean functions,
they are defined on every input (so they cannot raise a runtime error or
mutate their argument), and on every input they produce an event of the
expected variant. -/
theorem conversions_total_and_variant_correct :
    (∀ (slot : Nat) (is_startup : Bool) (value : ReplicaAccountInfoVersions),
        (AccTx.into_acc slot is_startup value).isAcc = true) ∧
    (∀ (slot : Nat) (value : ReplicaTransactionInfoVersions),
        (AccTx.into_tx slot value).isTx = true) := by
  constructor
  · intro slot is_startup value
    cases value <;> rfl
  · intro slot value
    cases value <;> rfl

/-- Helper: a string encodes its own final piece. -/
theorem encodes_tail (l piece : String) : encodesField (l ++ piece) piece :=
  ⟨l, "", by rw [String.append_empty]⟩

/-- Helper: a string encodes its own head piece. -/
theorem encodes_head (piece post : String) : encodesField (piece ++ post) piece :=
  ⟨"", post, by rw [String.empty_append]⟩

/-- Helper: appending on the right preserves `encodesField`. -/
theorem encodes_snoc (b : String) {s piece : String}
    (h : encodesField s piece) : encodesField (s ++ b) piece := by
  obtain ⟨l, r, rfl⟩ := h
  exact ⟨l, r ++ b, by rw [String.append_assoc]⟩

/-- Helper: prepending on the left preserves `encodesField`. -/
theorem encodes_cons_left (a : String) {s piece : String}
    (h : encodesField s piece) : encodesField (a ++ s) piece := by
  obtain ⟨l, r, rfl⟩ := h
  exact ⟨a ++ l, r, by simp only [String.append_assoc]⟩

/-- Helper: a concatenation starts with its left part. -/
theorem begins_of (t u : String) : beginsWith (t ++ u) t :=
  ⟨u, rfl⟩

/-- Helper: appending on the right preserves `beginsWith`. -/
theorem begins_snoc (b : String) {s t : String}
    (h : beginsWith s t) : beginsWith (s ++ b) t := by
  obtain ⟨r, rfl⟩ := h
  exact ⟨r ++ b, by rw [String.append_assoc]⟩

/-- Helper: every member of a field list occurs verbatim in the
comma-space join of that list. -/
theorem encodes_body (l : List String) (piece : String) (hp : piece ∈ l) :
    encodesField (debugBody l) piece := by
  induction l with
  | nil => cases hp
  | cons p rest ih =>
    cases hp with
    | head =>
      cases rest with
      | nil =>
        exact ⟨"", "", by
          simp [debugBody, String.empty_append, String.append_empty]⟩
      | cons q t =>
        simp only [debugBody]
        exact encodes_snoc _ (encodes_head piece ", ")
    | tail _ h =>
      cases rest with
      | nil => cases h
      | cons q t =>
        simp only [debugBody]
        exact encodes_cons_left _ (ih h)

/-- C7: serialization is deterministic and is a textual encoding of the
variant tag and every field: equal events serialize to identical byte
sequences, every serialization opens with the event's variant tag, and
the `name: value` rendering of every one of the event's fields occurs
verbatim in the serialized string. -/
theorem serialize_deterministic_and_encodes_all_fields :
    (∀ a b : AccTx, a = b → a.into_bytes = b.into_bytes) ∧
    (∀ e : AccTx, beginsWith e.to_string e.variantTag) ∧
    (∀ e : AccTx, ∀ piece ∈ e.fieldPieces, encodesField e.to_string piece) := by
  refine ⟨fun a b h => congrArg AccTx.into_bytes h, ?_, ?_⟩
  · intro e
    exact begins_snoc _ (begins_snoc _ (begins_of _ _))
  · intro e piece hp
    exact encodes_snoc _ (encodes_cons_left _ (encodes_body _ _ hp))

/-- C7 witness: the determinism conjunct applied at a concrete event, and
the field-coverage conjunct applied at a concrete event and field piece. -/
theorem serialize_deterministic_witness :
    (sampleAcc = sampleAcc ∧
      AccTx.into_bytes sampleAcc = AccTx.into_bytes sampleAcc) ∧
    (fieldStr "lamports" (toString (500 : Nat)) ∈ sampleAcc.fieldPieces ∧
      encodesField sampleAcc.to_string
        (fieldStr "lamports" (toString (500 : Nat)))) :=
  ⟨⟨rfl, serialize_deterministic_and_encodes_all_fields.1 sampleAcc sampleAcc rfl⟩,
   ⟨by decide,
    serialize_deterministic_and_encodes_all_fields.2.2 sampleAcc
      (fieldStr "lamports" (toString (500 : Nat))) (by decide)⟩⟩

/-- Helper: the two variant discriminants are complementary. -/
theorem isTx_eq_not_isAcc (e : AccTx) : e.isTx = !e.isAcc := by
  cases e <;> rfl

/-- C3: the writer task appends each dequeued event exactly once to the
stream matching its variant, in dequeue order: after draining `evs`, the
accounts stream holds its previous contents followed by the serialized
records of the `Acc` events of `evs` in order, and the transactions
stream likewise for the `Tx` events. In particular draining N events of
one kind appends exactly the N records of that kind's stream in the same
relative order. -/
theorem writer_appends_each_event_once_in_order
    (evs : List AccTx) (accs_file txs_file : FileStream) :
    (writerDrain evs accs_file txs_file).1.contents
      = accs_file.contents
        ++ ((evs.filter AccTx.isAcc).map AccTx.into_bytes).flatten ∧
    (writerDrain evs accs_file txs_file).2.contents
      = txs_file.contents
        ++ ((evs.filter AccTx.isTx).map AccTx.into_bytes).flatten := by
  induction evs generalizing accs_file txs_file with
  | nil => simp [writerDrain]
  | cons e rest ih =>
    cases hAcc : e.isAcc with
    | true =>
      simp [writerDrain, hAcc, isTx_eq_not_isAcc, appendRecord, ih,
        List.filter_cons]
    | false =>
      simp [writerDrain, hAcc, isTx_eq_not_isAcc, appendRecord, ih,
        List.filter_cons]

/-- C6 (amended): an I/O failure on an append is fatal to the writer
task: if the first k writes succeed and the write of the (k+1)-st
dequeued event fails, the task panics, performs no retry and no further
append — the streams hold exactly what the successful prefix produced —
and emits no error-severity log record (the failure surfaces as the
task's panic, not through the `log` facade). -/
theorem write_failure_fatal_no_retry :
    ∀ (evs : List AccTx) (ok : Nat → Bool) (n : Nat)
      (accs_file txs_file : FileStream) (k : Nat),
      k < evs.length →
      (∀ j, j < k → ok (n + j) = true) →
      ok (n + k) = false →
      writerDrainF ok evs n accs_file txs_file =
        ⟨(writerDrain (evs.take k) accs_file txs_file).1,
         (writerDrain (evs.take k) accs_file txs_file).2,
         true, []⟩ := by
  intro evs
  induction evs with
  | nil =>
    intro ok n accs_file txs_file k hk hpre hfail
    exact absurd hk (by simp)
  | cons e rest ih =>
    intro ok n accs_file txs_file k hk hpre hfail
    cases k with
    | zero =>
      have h0 : ok n = false := by simpa using hfail
      simp [writerDrainF, writerDrain, h0]
    | succ m =>
      have h0 : ok n = true := by
        have := hpre 0 (Nat.succ_pos m)
        simpa using this
      have hm : m < rest.length := by simpa using hk
      have hpre' : ∀ j, j < m → ok (n + 1 + j) = true := by
        intro j hj
        have h := hpre (j + 1) (by omega)
        have e1 : n + (j + 1) = n + 1 + j := by omega
        rw [e1] at h
        exact h
      have hfail' : ok (n + 1 + m) = false := by
        have e1 : n + (m + 1) = n + 1 + m := by omega
        rw [e1] at hfail
        exact hfail
      cases hAcc : e.isAcc with
      | true =>
        simp only [writerDrainF, writerDrain, h0, hAcc, List.take_succ_cons,
          if_true, ite_true]
        exact ih ok (n + 1) (appendRecord accs_file e.into_bytes) txs_file m
          hm hpre' hfail'
      | false =>
        simp only [writerDrainF, writerDrain, h0, hAcc, List.take_succ_cons,
          Bool.false_eq_true, if_false, ite_false]
        exact ih ok (n + 1) accs_file (appendRecord txs_file e.into_bytes) m
          hm hpre' hfail'

/-- C6 witness: the amended theorem applied at a concrete run where the
first write succeeds and the second fails. -/
theorem write_failure_fatal_witness :
    (1 < ([sampleAcc, sampleTx] : List AccTx).length) ∧
    writerDrainF (fun n => n == 0) [sampleAcc, sampleTx] 0
        ⟨"./accs.txt", []⟩ ⟨"./txs.txt", []⟩ =
      ⟨(writerDrain ([sampleAcc, sampleTx].take 1)
          ⟨"./accs.txt", []⟩ ⟨"./txs.txt", []⟩).1,
       (writerDrain ([sampleAcc, sampleTx].take 1)
          ⟨"./accs.txt", []⟩ ⟨"./txs.txt", []⟩).2,
       true, []⟩ :=
  ⟨by decide,
   write_failure_fatal_no_retry [sampleAcc, sampleTx] (fun n => n == 0) 0
     ⟨"./accs.txt", []⟩ ⟨"./txs.txt", []⟩ 1
     (by decide)
     (by
       intro j hj
       have hj0 : j = 0 := by omega
       subst hj0
       decide)
     (by decide)⟩

/-- C6 counterexample to the claim as stated: in a concrete run whose
first write fails, the task panics but its error-severity log is empty —
the failure is not logged at error severity by the plugin. -/
theorem write_failure_not_error_logged :
    (writerDrainF (fun _ => false) [sampleAcc] 0
        ⟨"./accs.txt", []⟩ ⟨"./txs.txt", []⟩).panicked = true ∧
    (writerDrainF (fun _ => false) [sampleAcc] 0
        ⟨"./accs.txt", []⟩ ⟨"./txs.txt", []⟩).error_log = [] :=
  ⟨rfl, rfl⟩

/-- C4: every steady-state callback returns success unconditionally:
`update_account`, `notify_transaction`, `notify_block_metadata`,
`update_slot_status` and `notify_end_of_startup` return Ok(()) on every
input and in every pipeline state. -/
theorem steady_state_callbacks_return_ok :
    (∀ (p : FusionEnginePlugin) (account : ReplicaAccountInfoVersions)
       (slot : Nat) (is_startup : Bool) (s : PipelineState),
       (update_account p account slot is_startup s).2 = Except.ok ()) ∧
    (∀ (p : FusionEnginePlugin) (transaction : ReplicaTransactionInfoVersions)
       (slot : Nat) (s : PipelineState),
       (notify_transaction p transaction slot s).2 = Except.ok ()) ∧
    (∀ (p : FusionEnginePlugin) (blockinfo : ReplicaBlockInfoVersions)
       (s : PipelineState),
       (notify_block_metadata p blockinfo s).2 = Except.ok ()) ∧
    (∀ (p : FusionEnginePlugin) (slot : Nat) (parent : Option Nat)
       (status : SlotStatus) (s : PipelineState),
       (update_slot_status p slot parent status s).2 = Except.ok ()) ∧
    (∀ (p : FusionEnginePlugin) (s : PipelineState),
       (notify_end_of_startup p s).2 = Except.ok ()) :=
  ⟨fun _ _ _ _ _ => rfl, fun _ _ _ _ => rfl, fun _ _ _ => rfl,
   fun _ _ _ _ _ => rfl, fun _ _ => rfl⟩

/-- C8: on every account-update and transaction-notify callback the shim
enqueues exactly the constructed event and returns success to the host;
the callback's whole effect is the queue append — both output streams are
untouched, so the calling thread's result never depends on the writer's
I/O. -/
theorem callbacks_enqueue_and_return_without_io :
    (∀ (p : FusionEnginePlugin) (account : ReplicaAccountInfoVersions)
       (slot : Nat) (is_startup : Bool) (s : PipelineState),
       update_account p account slot is_startup s =
         ({ s with queue := s.queue ++ [AccTx.into_acc slot is_startup account] },
          Except.ok ()) ∧
       (update_account p account slot is_startup s).1.accs_file = s.accs_file ∧
       (update_account p account slot is_startup s).1.txs_file = s.txs_file) ∧
    (∀ (p : FusionEnginePlugin) (transaction : ReplicaTransactionInfoVersions)
       (slot : Nat) (s : PipelineState),
       notify_transaction p transaction slot s =
         ({ s with queue := s.queue ++ [AccTx.into_tx slot transaction] },
          Except.ok ()) ∧
       (notify_transaction p transaction slot s).1.accs_file = s.accs_file ∧
       (notify_transaction p transaction slot s).1.txs_file = s.txs_file) :=
  ⟨fun _ _ _ _ _ => ⟨rfl, rfl, rfl⟩, fun _ _ _ _ => ⟨rfl, rfl, rfl⟩⟩

/-- C9: both capability queries return true for every plugin instance. -/
theorem notifications_enabled_for_every_instance :
    ∀ p : FusionEnginePlugin,
      account_data_notifications_enabled p = true ∧
      transaction_notifications_enabled p = true :=
  fun _ => ⟨rfl, rfl⟩

/-- C10: the two output paths are the compile-time constants "./accs.txt"
and "./txs.txt": the singleton creates the streams at exactly those
paths, `on_load` returns Ok(()) and leaves the pipeline untouched for
every config_file argument, and the writer never changes a stream's
path — so where events are written is independent of `on_load`'s
argument. -/
theorem output_paths_constant_regardless_of_config :
    initPipeline.accs_file.path = "./accs.txt" ∧
    initPipeline.txs_file.path = "./txs.txt" ∧
    (∀ (p : FusionEnginePlugin) (config_file : String) (s : PipelineState),
       (on_load p config_file s).1 = s ∧
       (on_load p config_file s).2.2 = Except.ok ()) ∧
    (∀ (evs : List AccTx) (accs_file txs_file : FileStream),
       (writerDrain evs accs_file txs_file).1.path = accs_file.path ∧
       (writerDrain evs accs_file txs_file).2.path = txs_file.path) := by
  refine ⟨rfl, rfl, fun _ _ _ => ⟨rfl, rfl⟩, ?_⟩
  intro evs
  induction evs with
  | nil =>
    intro accs_file txs_file
    simp [writerDrain]
  | cons e rest ih =>
    intro accs_file txs_file
    cases hAcc : e.isAcc <;> simp [writerDrain, hAcc, appendRecord, ih]
